import Mathlib

/-
Shallow embedding of the Spray-and-Wait delay-tolerant-network engine from
src/dtn.c and src/dtn.h.

Modelling conventions:
  - machine integers are Nat; the sequence counter pkt_seq_no is a uint8_t in
    the source, so its update is taken modulo 2^8 = 256;
  - rime addresses (rimeaddr_t) are opaque Nat identifiers; rimeaddr_cmp is
    equality; rimeaddr_node_addr is the explicit parameter `me`;
  - C pointers into the packet queue (pkt_last_sent, sent_runicast, the result
    of find_packet) are modelled as positions in the queue list;
  - each receive handler returns the new engine state together with the list
    of frames it hands to the radio (broadcast_send / unicast_send /
    runicast_send); ctimer_set on the rotation timer is modelled by recording
    the armed duration in local_ctimer; each queue entry carries the duration
    its lifetime ctimer was last armed with, and removing the entry removes
    (i.e. stops, as dtn_remove_queued_packet does with ctimer_stop) that timer;
  - CLOCK_SECOND is a platform constant of Contiki; its concrete value is
    irrelevant to every statement below, a representative value is fixed so
    that all definitions evaluate.
-/

namespace DTN

def CLOCK_SECOND : Nat := 128

def MAX_QUEUE_PACKETS : Nat := 5

def DTN_MAX_TRANSMISSIONs : Nat := 3

def DTN_L_COPIES : Nat := 8

def DTN_VERSION : Nat := 1

def DTN_QUEUE_DELAY : Nat := 3 * CLOCK_SECOND

def DTN_PACKET_DELAY : Nat := 1 * CLOCK_SECOND

def DTN_TIMEOUT_UNCONFIRMED : Nat := 1 * CLOCK_SECOND

def DTN_MAX_LIFETIME : Nat := 60 * CLOCK_SECOND

/-- struct dtn_proto_header of dtn.h: version and the two magic bytes. -/
structure dtn_proto_header where
  version : Nat
  magic0 : Char
  magic1 : Char
deriving DecidableEq

/-- struct dtn_msg_header of dtn.h. num_copies and epacketid are uint16_t. -/
structure dtn_msg_header where
  protocol : dtn_proto_header
  num_copies : Nat
  esender : Nat
  ereceiver : Nat
  epacketid : Nat
deriving DecidableEq

/-- One packetqueue_item: the queuebuf content (header followed by the
optional payload) plus the duration its lifetime ctimer was armed with. -/
structure QueueEntry where
  hdr : dtn_msg_header
  payload : Option String
  lifetime : Nat
deriving DecidableEq

/-- A frame handed to the radio by a handler: broadcast_send, unicast_send or
runicast_send, with the buffer content at the moment of the call. -/
inductive Packet where
  | bcast (hdr : dtn_msg_header) (payload : Option String)
  | unic (hdr : dtn_msg_header) (payload : Option String) (dest : Nat)
  | runic (hdr : dtn_msg_header) (dest : Nat) (max_tx : Nat)
deriving DecidableEq

/-- struct dtn_vars of dtn.h plus the queue itself (pkt_q points at the global
PACKETQUEUE). pkt_seq_no is a uint8_t in the source. -/
structure dtn_vars where
  pkt_last_sent : Option Nat
  pkt_seq_no : Nat
  queue : List QueueEntry
  local_ctimer : Nat
  sent_runicast : Option Nat
deriving DecidableEq

/-- is_spray_wait of dtn.c: version and the two magic bytes must match. -/
def is_spray_wait (hdr : dtn_msg_header) : Bool :=
  if hdr.protocol.version ≠ DTN_VERSION then false
  else if hdr.protocol.magic0 ≠ 'S' ∨ hdr.protocol.magic1 ≠ 'W' then false
  else true

/-- ceiling_divider of dtn.c, on a uint16_t value (only ever called with
divider = 2). -/
def ceiling_divider (value : Nat) (divider : Nat) : Nat :=
  if value % 2 ≠ 0 then 1 + (value - 1) / divider
  else value / divider

/-- calculate_max_lifetime of dtn.c: the logarithmic formula is commented out
in the source; the live definition ignores its argument and returns the fixed
constant. -/
def calculate_max_lifetime (num_copies : Nat) : Nat :=
  DTN_MAX_LIFETIME

/-- find_packet of dtn.c: first entry whose epacketid, esender and ereceiver
all match, returned as a position in the queue (NULL becomes none). -/
def find_packet (pkt_id : Nat) (esender : Nat) (ereceiver : Nat) :
    List QueueEntry → Option Nat
  | [] => none
  | e :: rest =>
    if e.hdr.epacketid = pkt_id ∧ e.hdr.esender = esender ∧
        e.hdr.ereceiver = ereceiver then
      some 0
    else
      (find_packet pkt_id esender ereceiver rest).map (fun i => i + 1)

/-- In-place mutation of the queuebuf a packetqueue_item owns (the C handlers
write through the pointer returned by queuebuf_dataptr). -/
def update_entry (q : List QueueEntry) (i : Nat) (f : QueueEntry → QueueEntry) :
    List QueueEntry :=
  match q[i]? with
  | none => q
  | some e => q.set i (f e)

/-- The position broadcast_next attempts: packetqueue_first when pkt_last_sent
is NULL or its next pointer is NULL (last entry), otherwise pkt_last_sent's
successor. -/
def bnext_attempt (s : dtn_vars) : Nat :=
  match s.pkt_last_sent with
  | none => 0
  | some j => if j + 1 = s.queue.length then 0 else j + 1

/-- broadcast_next of dtn.c: the rotation timer handler.  Returns the new
state (cursor and rearmed local_ctimer) and the broadcast frame sent, if any.
The inner num_copies = 0 test is the re-check done by load_pkt_item with
is_bcast = 1. -/
def broadcast_next (s : dtn_vars) : dtn_vars × Option Packet :=
  if s.queue.length = 0 then
    ({ s with local_ctimer := DTN_QUEUE_DELAY }, none)
  else
    match s.queue[bnext_attempt s]? with
    | none => (s, none)
    | some item =>
      if item.hdr.num_copies < 1 then
        ({ s with local_ctimer := DTN_PACKET_DELAY }, none)
      else
        if item.hdr.num_copies = 0 then
          ({ s with pkt_last_sent := some (bnext_attempt s),
                    local_ctimer := DTN_PACKET_DELAY }, none)
        else
          ({ s with pkt_last_sent := some (bnext_attempt s),
                    local_ctimer :=
                      if bnext_attempt s + 1 = s.queue.length then
                        DTN_QUEUE_DELAY
                      else DTN_PACKET_DELAY },
            some (Packet.bcast item.hdr item.payload))

/-- The entry queue_buf(1) admits for a freshly received broadcast: the
buffer's num_copies is zeroed ("no Runic yet") and the unconfirmed lifetime
is used for the ctimer. -/
def recv_entry (hdr : dtn_msg_header) (payload : Option String) : QueueEntry :=
  { hdr := { hdr with num_copies := 0 },
    payload := payload,
    lifetime := DTN_TIMEOUT_UNCONFIRMED }

/-- recv_bcast of dtn.c.  `me` is rimeaddr_node_addr, `from_` the link-layer
sender; the inbound buffer holds `hdr` followed by `payload`.  In the admit
branch, queue_buf(1) zeroes num_copies and enqueues with the unconfirmed
lifetime (recv_entry), the entry is re-found with find_packet, and
load_hdr_item(·, 0) puts the stored header alone (unhalved) in the buffer for
unicast_send. -/
def recv_bcast (me : Nat) (from_ : Nat) (hdr : dtn_msg_header)
    (payload : Option String) (s : dtn_vars) : dtn_vars × List Packet :=
  if is_spray_wait hdr = false then (s, [])
  else if (hdr.num_copies = 1 ∧ hdr.ereceiver ≠ me) ∨ hdr.esender = me then
    (s, [])
  else if hdr.ereceiver = me then
    (s, [Packet.unic hdr none from_])
  else
    match find_packet hdr.epacketid hdr.esender hdr.ereceiver s.queue with
    | some i =>
      match s.queue[i]? with
      | none => (s, [])
      | some e =>
        if e.hdr.num_copies > 0 then (s, [])
        else (s, [Packet.unic e.hdr none from_])
    | none =>
      if s.queue.length = MAX_QUEUE_PACKETS then (s, [])
      else
        match find_packet hdr.epacketid hdr.esender hdr.ereceiver
            (s.queue ++ [recv_entry hdr payload]) with
        | none => ({ s with queue := s.queue ++ [recv_entry hdr payload] }, [])
        | some j =>
          match (s.queue ++ [recv_entry hdr payload])[j]? with
          | none => ({ s with queue := s.queue ++ [recv_entry hdr payload] }, [])
          | some e =>
            ({ s with queue := s.queue ++ [recv_entry hdr payload] },
              [Packet.unic e.hdr none from_])

/-- recv_unic of dtn.c.  Removal uses dtn_remove_queued_packet (which also
stops the entry's lifetime ctimer); the hand-off branch copies the stored
header, ceiling-halves the copy when the stored count is at least 2
(load_hdr_item with isHalved = 1), records the entry in sent_runicast and
sends the copy by runicast. -/
def recv_unic (from_ : Nat) (hdr : dtn_msg_header) (s : dtn_vars) :
    dtn_vars × List Packet :=
  if is_spray_wait hdr = false then (s, [])
  else
    match find_packet hdr.epacketid hdr.esender hdr.ereceiver s.queue with
    | none => (s, [])
    | some i =>
      if hdr.ereceiver = from_ then
        ({ s with queue := s.queue.eraseIdx i }, [])
      else
        match s.queue[i]? with
        | none => (s, [])
        | some e =>
          ({ s with sent_runicast := some i },
            [Packet.runic
              (if 2 ≤ e.hdr.num_copies then
                { e.hdr with
                    num_copies := ceiling_divider e.hdr.num_copies 2 }
              else e.hdr)
              from_ DTN_MAX_TRANSMISSIONs])

/-- recv_runic of dtn.c: adopt the forwarded num_copies verbatim and rearm the
lifetime ctimer with calculate_max_lifetime of the new count.  The C test
hdr->num_copies <= 0 on a uint16_t is num_copies = 0. -/
def recv_runic (from_ : Nat) (hdr : dtn_msg_header) (s : dtn_vars) : dtn_vars :=
  if is_spray_wait hdr = false then s
  else
    match find_packet hdr.epacketid hdr.esender hdr.ereceiver s.queue with
    | none => s
    | some i =>
      if hdr.num_copies = 0 then s
      else
        { s with queue := update_entry s.queue i (fun e =>
            { e with
                hdr := { e.hdr with num_copies := hdr.num_copies },
                lifetime := calculate_max_lifetime hdr.num_copies }) }

/-- sent_runic of dtn.c: on runicast success, ceiling-halve the stored count
of the recorded entry.  The source does not reset sent_runicast to NULL. -/
def sent_runic (s : dtn_vars) : dtn_vars :=
  match s.sent_runicast with
  | none => s
  | some i =>
    { s with queue := update_entry s.queue i (fun e =>
        { e with
            hdr := { e.hdr with
                num_copies := ceiling_divider e.hdr.num_copies 2 } }) }

/-- The header create_buf_hdr of dtn.c builds: constants, the full initial
copy budget, local node as esender, and the current sequence counter as id. -/
def create_buf_hdr (me : Nat) (destination : Nat) (seq : Nat) : dtn_msg_header :=
  { protocol := { version := DTN_VERSION, magic0 := 'S', magic1 := 'W' },
    num_copies := DTN_L_COPIES,
    esender := me,
    ereceiver := destination,
    epacketid := seq }

def dtn_q_size (s : dtn_vars) : Nat :=
  s.queue.length

/-- dtn_new_buff of dtn.c.  The C function returns void; the Unit component is
that (absent) caller-visible result.  After the capacity check it builds the
data and header buffers, increments the uint8_t sequence counter (mod 256),
and queue_buf(0) enqueues with the lifetime from calculate_max_lifetime
(a constant; the C code even passes it a misread field, which is harmless
precisely because the function ignores its argument). -/
def dtn_new_buff (data : String) (destination : Nat) (me : Nat)
    (s : dtn_vars) : dtn_vars × Unit :=
  if s.queue.length = MAX_QUEUE_PACKETS then (s, ())
  else
    let hdr := create_buf_hdr me destination s.pkt_seq_no
    ({ s with
        pkt_seq_no := (s.pkt_seq_no + 1) % 256,
        queue := s.queue ++
          [{ hdr := hdr,
             payload := some data,
             lifetime := calculate_max_lifetime hdr.num_copies }] }, ())

/-- dtn_init of dtn.c: counter 0, empty queue, NULL cursor and hand-off
record, rotation timer armed with DTN_QUEUE_DELAY. -/
def dtn_init : dtn_vars :=
  { pkt_last_sent := none,
    pkt_seq_no := 0,
    queue := [],
    local_ctimer := DTN_QUEUE_DELAY,
    sent_runicast := none }

/-- One engine event: an Engine Facade call, an inbound frame, a runicast
outcome callback, the rotation timer firing, or a lifetime ctimer expiry
(which runs dtn_remove_queued_packet on its entry). -/
inductive Op where
  | originate (data : String) (destination : Nat)
  | bcast_rx (from_ : Nat) (hdr : dtn_msg_header) (payload : Option String)
  | unic_rx (from_ : Nat) (hdr : dtn_msg_header)
  | runic_rx (from_ : Nat) (hdr : dtn_msg_header)
  | runic_sent
  | runic_timedout
  | bcast_timer
  | lifetime_expire (i : Nat)

/-- Dispatch of one event, dropping the radio output (timedout_runic does
nothing). -/
def step (me : Nat) (s : dtn_vars) : Op → dtn_vars
  | Op.originate d dst => (dtn_new_buff d dst me s).1
  | Op.bcast_rx f h p => (recv_bcast me f h p s).1
  | Op.unic_rx f h => (recv_unic f h s).1
  | Op.runic_rx f h => recv_runic f h s
  | Op.runic_sent => sent_runic s
  | Op.runic_timedout => s
  | Op.bcast_timer => (broadcast_next s).1
  | Op.lifetime_expire i => { s with queue := s.queue.eraseIdx i }

/-- A whole engine run from dtn_init through a sequence of events. -/
def run (me : Nat) (ops : List Op) : dtn_vars :=
  ops.foldl (step me) dtn_init

/-- A well-formed queue entry with key (id, 1, 2), used in the concrete
scenarios below. -/
def mk_entry (id : Nat) (copies : Nat) : QueueEntry :=
  { hdr := { protocol := { version := DTN_VERSION, magic0 := 'S', magic1 := 'W' },
             num_copies := copies,
             esender := 1,
             ereceiver := 2,
             epacketid := id },
    payload := some "pay",
    lifetime := DTN_MAX_LIFETIME }

/-- A queue state whose rotation cursor is on the live head entry and whose
second (next-to-attempt) entry has num_copies = 0. -/
def c1_state : dtn_vars :=
  { pkt_last_sent := some 0,
    pkt_seq_no := 2,
    queue := [mk_entry 0 8, mk_entry 1 0],
    local_ctimer := DTN_PACKET_DELAY,
    sent_runicast := none }

/-- A valid broadcast header with num_copies = 1 (a destination-search frame)
for a node that is neither its origin 10 nor its destination 20. -/
def c6_hdr : dtn_msg_header :=
  { protocol := { version := DTN_VERSION, magic0 := 'S', magic1 := 'W' },
    num_copies := 1,
    esender := 10,
    ereceiver := 20,
    epacketid := 5 }

/-- A valid broadcast header whose origin and destination are both node 30. -/
def c7_hdr : dtn_msg_header :=
  { protocol := { version := DTN_VERSION, magic0 := 'S', magic1 := 'W' },
    num_copies := 8,
    esender := 30,
    ereceiver := 30,
    epacketid := 5 }

/-- A header-only unicast request for the key (5, 1, 2). -/
def req_hdr : dtn_msg_header :=
  { protocol := { version := DTN_VERSION, magic0 := 'S', magic1 := 'W' },
    num_copies := 0,
    esender := 1,
    ereceiver := 2,
    epacketid := 5 }

/-- An engine state holding one entry with key (5, 1, 2) and 7 local copies. -/
def w_state7 : dtn_vars :=
  { dtn_init with queue := [mk_entry 5 7] }

/-- An engine state holding one entry with 8 copies whose hand-off has been
recorded in sent_runicast. -/
def w_state8 : dtn_vars :=
  { dtn_init with queue := [mk_entry 5 8], sent_runicast := some 0 }

/-- A reliable hand-off header for the key (5, 1, 2) forwarding 4 copies. -/
def runic_hdr4 : dtn_msg_header :=
  { protocol := { version := DTN_VERSION, magic0 := 'S', magic1 := 'W' },
    num_copies := 4,
    esender := 1,
    ereceiver := 2,
    epacketid := 5 }

/-- An engine state whose queue is at MAX_QUEUE_PACKETS capacity. -/
def full_state : dtn_vars :=
  { dtn_init with
      queue := [mk_entry 0 8, mk_entry 1 8, mk_entry 2 8,
                mk_entry 3 8, mk_entry 4 8] }

/-- An engine state whose uint8_t sequence counter is at its maximum 255. -/
def s255 : dtn_vars :=
  { dtn_init with pkt_seq_no := 255 }

/-- A valid broadcast offer with the full budget from origin 10 to
destination 20. -/
def offer_hdr : dtn_msg_header :=
  { protocol := { version := DTN_VERSION, magic0 := 'S', magic1 := 'W' },
    num_copies := 8,
    esender := 10,
    ereceiver := 20,
    epacketid := 6 }

/-- A valid broadcast offer from origin 10 whose destination is node 30. -/
def c7w_hdr : dtn_msg_header :=
  { protocol := { version := DTN_VERSION, magic0 := 'S', magic1 := 'W' },
    num_copies := 8,
    esender := 10,
    ereceiver := 30,
    epacketid := 7 }

/- ------------------------------------------------------------------ -/
/- Helper lemmas -/

theorem update_entry_length (q : List QueueEntry) (i : Nat)
    (f : QueueEntry → QueueEntry) : (update_entry q i f).length = q.length := by
  unfold update_entry
  split <;> simp

theorem update_entry_get_self {q : List QueueEntry} {i : Nat} {e : QueueEntry}
    (f : QueueEntry → QueueEntry) (h : q[i]? = some e) :
    (update_entry q i f)[i]? = some (f e) := by
  unfold update_entry
  rw [h]
  exact List.getElem?_set_eq (List.getElem?_eq_some.mp h).1

theorem sent_runic_some {t : dtn_vars} {i : Nat}
    (h : t.sent_runicast = some i) :
    sent_runic t = { t with queue := update_entry t.queue i (fun e =>
      { e with hdr := { e.hdr with
          num_copies := ceiling_divider e.hdr.num_copies 2 } }) } := by
  unfold sent_runic
  rw [h]

theorem find_packet_append_none {p a b : Nat} {e : QueueEntry} :
    ∀ {q : List QueueEntry}, find_packet p a b q = none →
    find_packet p a b (q ++ [e]) =
      if e.hdr.epacketid = p ∧ e.hdr.esender = a ∧ e.hdr.ereceiver = b then
        some q.length
      else none := by
  intro q
  induction q with
  | nil =>
    intro _
    simp only [List.nil_append, find_packet, List.length_nil]
    split <;> simp [find_packet]
  | cons f rest ih =>
    intro h
    simp only [find_packet] at h
    split at h
    · simp at h
    · rename_i hkey
      have hrest : find_packet p a b rest = none := by
        cases hfr : find_packet p a b rest with
        | none => rfl
        | some j => rw [hfr] at h; simp at h
      have hstep : find_packet p a b ((f :: rest) ++ [e]) =
          (find_packet p a b (rest ++ [e])).map (fun i => i + 1) := by
        simp only [List.cons_append, find_packet, if_neg hkey]
        rfl
      rw [hstep, ih hrest]
      split <;> simp

theorem broadcast_next_queue (s : dtn_vars) :
    (broadcast_next s).1.queue = s.queue := by
  unfold broadcast_next
  split
  · rfl
  · split
    · rfl
    · split
      · rfl
      · split
        · rfl
        · rfl

theorem dtn_new_buff_queue_length {d : String} {dst me : Nat} {s : dtn_vars}
    (h : s.queue.length ≤ MAX_QUEUE_PACKETS) :
    (dtn_new_buff d dst me s).1.queue.length ≤ MAX_QUEUE_PACKETS := by
  unfold dtn_new_buff
  split
  · exact h
  · rename_i hne
    simp only [MAX_QUEUE_PACKETS] at h hne ⊢
    simp only [List.length_append, List.length_cons, List.length_nil]
    omega

theorem recv_bcast_queue_length {me f : Nat} {hdr : dtn_msg_header}
    {p : Option String} {s : dtn_vars}
    (h : s.queue.length ≤ MAX_QUEUE_PACKETS) :
    (recv_bcast me f hdr p s).1.queue.length ≤ MAX_QUEUE_PACKETS := by
  unfold recv_bcast
  repeat' split
  all_goals simp_all [MAX_QUEUE_PACKETS]
  all_goals omega

theorem recv_bcast_fresh_reject {me f : Nat} {hdr : dtn_msg_header}
    {p : Option String} {s : dtn_vars}
    (hlen : s.queue.length = MAX_QUEUE_PACKETS)
    (hne : hdr.ereceiver ≠ me)
    (hfind : find_packet hdr.epacketid hdr.esender hdr.ereceiver s.queue
      = none) :
    recv_bcast me f hdr p s = (s, []) := by
  unfold recv_bcast
  simp [hfind, hne, hlen]

theorem recv_unic_queue_length (f : Nat) (hdr : dtn_msg_header) (s : dtn_vars) :
    (recv_unic f hdr s).1.queue.length ≤ s.queue.length := by
  unfold recv_unic
  repeat' split
  all_goals simp [List.length_eraseIdx_le]

theorem recv_runic_queue_length (f : Nat) (hdr : dtn_msg_header)
    (s : dtn_vars) : (recv_runic f hdr s).queue.length = s.queue.length := by
  unfold recv_runic
  repeat' split
  all_goals simp [update_entry_length]

theorem sent_runic_queue_length (s : dtn_vars) :
    (sent_runic s).queue.length = s.queue.length := by
  unfold sent_runic
  split
  · rfl
  · simp [update_entry_length]

theorem step_queue_length {me : Nat} {s : dtn_vars} (op : Op)
    (h : s.queue.length ≤ MAX_QUEUE_PACKETS) :
    (step me s op).queue.length ≤ MAX_QUEUE_PACKETS := by
  cases op with
  | originate d dst => exact dtn_new_buff_queue_length h
  | bcast_rx f hd p => exact recv_bcast_queue_length h
  | unic_rx f hd => exact le_trans (recv_unic_queue_length f hd s) h
  | runic_rx f hd =>
    simp only [step]
    rw [recv_runic_queue_length]
    exact h
  | runic_sent =>
    simp only [step]
    rw [sent_runic_queue_length]
    exact h
  | runic_timedout => exact h
  | bcast_timer =>
    simp only [step]
    rw [broadcast_next_queue]
    exact h
  | lifetime_expire i =>
    simp only [step]
    exact le_trans (List.length_eraseIdx_le _ _) h

theorem run_queue_length (me : Nat) (ops : List Op) :
    (run me ops).queue.length ≤ MAX_QUEUE_PACKETS := by
  have main : ∀ (l : List Op) (s : dtn_vars),
      s.queue.length ≤ MAX_QUEUE_PACKETS →
      (l.foldl (step me) s).queue.length ≤ MAX_QUEUE_PACKETS := by
    intro l
    induction l with
    | nil => intro s hs; exact hs
    | cons op rest ih => intro s hs; exact ih _ (step_queue_length op hs)
  exact main ops dtn_init (by simp [dtn_init, MAX_QUEUE_PACKETS])

/-- C3: across every sequence of engine operations (originate, broadcast
receive, unicast receive, reliable-unicast receive, callbacks, timer fires,
lifetime expiries) the queue length never exceeds MAX_QUEUE_PACKETS = 5, and
an admission attempted while the queue is at capacity — dtn_new_buff, or
recv_bcast for a key not yet queued — is rejected with no side effect on the
queue or the rest of the engine state. -/
theorem C3_queue_bounded :
    MAX_QUEUE_PACKETS = 5 ∧
    (∀ (me : Nat) (ops : List Op),
      (run me ops).queue.length ≤ MAX_QUEUE_PACKETS) ∧
    (∀ (d : String) (dst me : Nat) (s : dtn_vars),
      s.queue.length = MAX_QUEUE_PACKETS →
      dtn_new_buff d dst me s = (s, ())) ∧
    (∀ (me f : Nat) (hdr : dtn_msg_header) (p : Option String) (s : dtn_vars),
      s.queue.length = MAX_QUEUE_PACKETS →
      hdr.ereceiver ≠ me →
      find_packet hdr.epacketid hdr.esender hdr.ereceiver s.queue = none →
      recv_bcast me f hdr p s = (s, [])) := by
  refine ⟨rfl, run_queue_length, ?_, ?_⟩
  · intro d dst me s hlen
    unfold dtn_new_buff
    rw [if_pos hlen]
  · intro me f hdr p s hlen hne hfind
    exact recv_bcast_fresh_reject hlen hne hfind

/-- Witness for C3 at concrete inputs: one origination from init stays within
the bound, and both admission paths are rejected without effect on a full
queue. -/
theorem C3_queue_bounded_witness :
    (run 8 [Op.originate "m" 3]).queue.length ≤ MAX_QUEUE_PACKETS ∧
    full_state.queue.length = MAX_QUEUE_PACKETS ∧
    runic_hdr4.ereceiver ≠ 8 ∧
    find_packet runic_hdr4.epacketid runic_hdr4.esender runic_hdr4.ereceiver
      full_state.queue = none ∧
    dtn_new_buff "m" 3 8 full_state = (full_state, ()) ∧
    recv_bcast 8 10 runic_hdr4 (some "x") full_state = (full_state, []) :=
  ⟨C3_queue_bounded.2.1 8 [Op.originate "m" 3],
   by decide,
   by decide,
   by decide,
   C3_queue_bounded.2.2.1 "m" 3 8 full_state (by decide),
   C3_queue_bounded.2.2.2 8 10 runic_hdr4 (some "x") full_state
     (by decide) (by decide) (by decide)⟩

theorem ceiling_divider_two (v : Nat) : ceiling_divider v 2 = (v + 1) / 2 := by
  unfold ceiling_divider
  split <;> omega

/-- C2: for a queue entry with v local copies, the reliable-unicast hand-off
triggered by a unicast request places ceil(v/2) in the outgoing header when
v ≥ 2 and v unchanged otherwise, leaves the stored entry untouched at send
time, and the later send-side success callback sets the stored count to
ceil(v/2) (for odd v = 7 the sender retains 4 and the receiver was sent 4). -/
theorem C2_handoff_halving :
    ∀ (from_ : Nat) (hdr : dtn_msg_header) (s : dtn_vars) (i : Nat)
      (e : QueueEntry),
      is_spray_wait hdr = true →
      find_packet hdr.epacketid hdr.esender hdr.ereceiver s.queue = some i →
      hdr.ereceiver ≠ from_ →
      s.queue[i]? = some e →
      ((recv_unic from_ hdr s).2 =
        [Packet.runic
          (if 2 ≤ e.hdr.num_copies then
            { e.hdr with num_copies := (e.hdr.num_copies + 1) / 2 }
          else e.hdr)
          from_ DTN_MAX_TRANSMISSIONs]) ∧
      (recv_unic from_ hdr s).1.queue = s.queue ∧
      (sent_runic (recv_unic from_ hdr s).1).queue[i]? =
        some { e with hdr := { e.hdr with
            num_copies := (e.hdr.num_copies + 1) / 2 } } := by
  intro from_ hdr s i e hsw hfind hne hget
  have hrecv : recv_unic from_ hdr s =
      ({ s with sent_runicast := some i },
        [Packet.runic
          (if 2 ≤ e.hdr.num_copies then
            { e.hdr with num_copies := ceiling_divider e.hdr.num_copies 2 }
          else e.hdr) from_ DTN_MAX_TRANSMISSIONs]) := by
    unfold recv_unic
    simp [hsw, hfind, hne, hget]
  have hsent := sent_runic_some (t := { s with sent_runicast := some i }) rfl
  refine ⟨?_, ?_, ?_⟩
  · rw [hrecv, ceiling_divider_two]
  · rw [hrecv]
  · rw [hrecv, hsent]
    show (update_entry s.queue i _)[i]? = _
    rw [update_entry_get_self _ hget]
    simp only [ceiling_divider_two]

/-- Witness for C2: node 9 requests the entry with 7 local copies; the
outgoing header carries 4, the stored entry stays at 7 through the send, and
the success callback leaves the sender holding 4. -/
theorem C2_handoff_halving_witness :
    (is_spray_wait req_hdr = true ∧
     find_packet req_hdr.epacketid req_hdr.esender req_hdr.ereceiver
       w_state7.queue = some 0 ∧
     req_hdr.ereceiver ≠ 9 ∧
     w_state7.queue[0]? = some (mk_entry 5 7)) ∧
    ((recv_unic 9 req_hdr w_state7).2 =
      [Packet.runic
        (if 2 ≤ (mk_entry 5 7).hdr.num_copies then
          { (mk_entry 5 7).hdr with
              num_copies := ((mk_entry 5 7).hdr.num_copies + 1) / 2 }
        else (mk_entry 5 7).hdr) 9 DTN_MAX_TRANSMISSIONs] ∧
     (recv_unic 9 req_hdr w_state7).1.queue = w_state7.queue ∧
     (sent_runic (recv_unic 9 req_hdr w_state7).1).queue[0]? =
       some { (mk_entry 5 7) with hdr := { (mk_entry 5 7).hdr with
           num_copies := ((mk_entry 5 7).hdr.num_copies + 1) / 2 } }) :=
  ⟨⟨by decide, by decide, by decide, by decide⟩,
   C2_handoff_halving 9 req_hdr w_state7 0 (mk_entry 5 7)
     (by decide) (by decide) (by decide) (by decide)⟩

/-- C4: an inbound reliable hand-off with a valid header is ignored (state
unchanged) when the key is absent or the forwarded num_copies is zero;
otherwise the matched entry adopts the forwarded num_copies verbatim and its
lifetime ctimer is rearmed to the constant DTN_MAX_LIFETIME, which
calculate_max_lifetime returns regardless of the count. -/
theorem C4_runic_adopt :
    (∀ (n : Nat), calculate_max_lifetime n = DTN_MAX_LIFETIME) ∧
    (∀ (f : Nat) (hdr : dtn_msg_header) (s : dtn_vars),
      is_spray_wait hdr = true →
      (find_packet hdr.epacketid hdr.esender hdr.ereceiver s.queue = none ∨
        hdr.num_copies = 0) →
      recv_runic f hdr s = s) ∧
    (∀ (f : Nat) (hdr : dtn_msg_header) (s : dtn_vars) (i : Nat)
      (e : QueueEntry),
      is_spray_wait hdr = true →
      find_packet hdr.epacketid hdr.esender hdr.ereceiver s.queue = some i →
      s.queue[i]? = some e →
      0 < hdr.num_copies →
      recv_runic f hdr s =
        { s with
            queue := s.queue.set i
              { e with
                  hdr := { e.hdr with num_copies := hdr.num_copies },
                  lifetime := DTN_MAX_LIFETIME } }) := by
  refine ⟨fun n => rfl, ?_, ?_⟩
  · intro f hdr s hsw hcase
    unfold recv_runic
    rcases hcase with hfind | hzero
    · simp [hfind]
    · cases hfq : find_packet hdr.epacketid hdr.esender hdr.ereceiver
        s.queue with
      | none => simp [hfq]
      | some i => simp [hfq, hzero]
  · intro f hdr s i e hsw hfind hget hpos
    unfold recv_runic
    simp [hsw, hfind, Nat.pos_iff_ne_zero.mp hpos, update_entry, hget,
      calculate_max_lifetime]

/-- Witness for C4: the hand-off for an unknown key leaves init unchanged;
the hand-off forwarding 4 copies onto the entry holding 7 sets the stored
count to 4 and the lifetime to DTN_MAX_LIFETIME. -/
theorem C4_runic_adopt_witness :
    calculate_max_lifetime 3 = DTN_MAX_LIFETIME ∧
    recv_runic 9 runic_hdr4 dtn_init = dtn_init ∧
    recv_runic 9 runic_hdr4 w_state7 =
      { w_state7 with
          queue := w_state7.queue.set 0
            { mk_entry 5 7 with
                hdr := { (mk_entry 5 7).hdr with
                    num_copies := runic_hdr4.num_copies },
                lifetime := DTN_MAX_LIFETIME } } :=
  ⟨C4_runic_adopt.1 3,
   C4_runic_adopt.2.1 9 runic_hdr4 dtn_init (by decide) (Or.inl (by decide)),
   C4_runic_adopt.2.2 9 runic_hdr4 w_state7 0 (mk_entry 5 7)
     (by decide) (by decide) (by decide) (by decide)⟩

/-- C5: an inbound unicast request with a valid header is ignored (state
unchanged, nothing sent) when the key is absent; when the requester is the
header's destination, the entry is removed from the queue (its lifetime
ctimer stopped by dtn_remove_queued_packet, modelled by the entry leaving the
queue) and no reliable unicast or other transmission is issued. -/
theorem C5_unic_terminal :
    ∀ (from_ : Nat) (hdr : dtn_msg_header) (s : dtn_vars),
      is_spray_wait hdr = true →
      (find_packet hdr.epacketid hdr.esender hdr.ereceiver s.queue = none →
        recv_unic from_ hdr s = (s, [])) ∧
      (∀ (i : Nat),
        find_packet hdr.epacketid hdr.esender hdr.ereceiver s.queue
          = some i →
        hdr.ereceiver = from_ →
        recv_unic from_ hdr s =
          ({ s with queue := s.queue.eraseIdx i }, [])) := by
  intro from_ hdr s hsw
  constructor
  · intro hfind
    unfold recv_unic
    simp [hsw, hfind]
  · intro i hfind heq
    unfold recv_unic
    rw [hfind]
    simp [hsw, heq]

/-- Witness for C5: an unknown key is ignored on the empty queue; the
destination node 2 requesting the queued entry removes it and nothing is
transmitted. -/
theorem C5_unic_terminal_witness :
    (is_spray_wait req_hdr = true ∧
     find_packet req_hdr.epacketid req_hdr.esender req_hdr.ereceiver
       dtn_init.queue = none ∧
     find_packet req_hdr.epacketid req_hdr.esender req_hdr.ereceiver
       w_state7.queue = some 0 ∧
     req_hdr.ereceiver = 2) ∧
    recv_unic 9 req_hdr dtn_init = (dtn_init, []) ∧
    recv_unic 2 req_hdr w_state7 =
      ({ w_state7 with queue := w_state7.queue.eraseIdx 0 }, []) :=
  ⟨⟨by decide, by decide, by decide, by decide⟩,
   (C5_unic_terminal 9 req_hdr dtn_init (by decide)).1 (by decide),
   (C5_unic_terminal 2 req_hdr w_state7 (by decide)).2 0
     (by decide) (by decide)⟩

/-- C10: the send-side success callback does not clear sent_runicast, so a
second invocation before the next unicast request ceiling-halves the same
entry's count again. -/
theorem C10_success_not_oneshot :
    ∀ (s : dtn_vars) (i : Nat) (e : QueueEntry),
      s.sent_runicast = some i →
      s.queue[i]? = some e →
      (sent_runic s).sent_runicast = some i ∧
      (sent_runic s).queue[i]? =
        some { e with hdr := { e.hdr with
            num_copies := (e.hdr.num_copies + 1) / 2 } } ∧
      (sent_runic (sent_runic s)).queue[i]? =
        some { e with hdr := { e.hdr with
            num_copies := ((e.hdr.num_copies + 1) / 2 + 1) / 2 } } := by
  intro s i e hrec hget
  have h1 := sent_runic_some hrec
  have hget1 : (sent_runic s).queue[i]? =
      some { e with hdr := { e.hdr with
          num_copies := ceiling_divider e.hdr.num_copies 2 } } := by
    rw [h1]
    exact update_entry_get_self _ hget
  have hrec1 : (sent_runic s).sent_runicast = some i := by
    rw [h1]
    exact hrec
  have h2 := sent_runic_some hrec1
  refine ⟨hrec1, ?_, ?_⟩
  · rw [hget1, ceiling_divider_two]
  · rw [h2]
    show (update_entry (sent_runic s).queue i _)[i]? = _
    rw [update_entry_get_self _ hget1]
    simp only [ceiling_divider_two]

/-- Witness for C10: the recorded entry holds 8 copies; one success callback
leaves 4, a second (with sent_runicast still set) leaves 2. -/
theorem C10_success_not_oneshot_witness :
    (w_state8.sent_runicast = some 0 ∧
     w_state8.queue[0]? = some (mk_entry 5 8)) ∧
    (sent_runic w_state8).sent_runicast = some 0 ∧
    (sent_runic w_state8).queue[0]? =
      some { (mk_entry 5 8) with hdr := { (mk_entry 5 8).hdr with
          num_copies := ((mk_entry 5 8).hdr.num_copies + 1) / 2 } } ∧
    (sent_runic (sent_runic w_state8)).queue[0]? =
      some { (mk_entry 5 8) with hdr := { (mk_entry 5 8).hdr with
          num_copies := (((mk_entry 5 8).hdr.num_copies + 1) / 2 + 1) / 2 } } :=
  ⟨⟨by decide, by decide⟩,
   C10_success_not_oneshot w_state8 0 (mk_entry 5 8) (by decide) (by decide)⟩

/-- C1 counterexample: in c1_state the last-sent entry is the live head
(8 copies) and the next entry in rotation has num_copies = 0.  The first
timer fire attempts the dead entry, skips, and does not advance
pkt_last_sent; the second fire attempts the very same dead entry and again
sends nothing — though the claim requires the next firing to try the
following entry (the head, which holds 8 copies and would have been
broadcast). -/
theorem C1_rotation_counterexample :
    bnext_attempt c1_state = 1 ∧
    (c1_state.queue[1]?).map (fun e => e.hdr.num_copies) = some 0 ∧
    (c1_state.queue[0]?).map (fun e => e.hdr.num_copies) = some 8 ∧
    (broadcast_next c1_state).2 = none ∧
    (broadcast_next c1_state).1.pkt_last_sent = some 0 ∧
    bnext_attempt (broadcast_next c1_state).1 = 1 ∧
    (broadcast_next (broadcast_next c1_state).1).2 = none ∧
    (broadcast_next (broadcast_next c1_state).1).1.pkt_last_sent = some 0 := by
  decide

/-- C1 (amended): the rotation attempts the entry after the last one sent
(wrapping to the head when no send is recorded or the last sent entry is the
tail); an attempted entry with num_copies ≥ 1 is broadcast, recorded in
pkt_last_sent and the timer rearmed with DTN_PACKET_DELAY (DTN_QUEUE_DELAY
when the entry is the tail); an attempted entry with num_copies < 1 is
skipped with a DTN_PACKET_DELAY rearm but the cursor is NOT advanced, so the
next firing attempts the same entry again rather than the following one, and
live entries beyond it are not reached while it stays at zero. -/
theorem C1_rotation :
    ∀ (s : dtn_vars) (e : QueueEntry),
      s.queue[bnext_attempt s]? = some e →
      ((e.hdr.num_copies < 1 →
        broadcast_next s =
          ({ s with local_ctimer := DTN_PACKET_DELAY }, none) ∧
        bnext_attempt (broadcast_next s).1 = bnext_attempt s) ∧
       (1 ≤ e.hdr.num_copies →
        broadcast_next s =
          ({ s with
              pkt_last_sent := some (bnext_attempt s),
              local_ctimer :=
                if bnext_attempt s + 1 = s.queue.length then DTN_QUEUE_DELAY
                else DTN_PACKET_DELAY },
            some (Packet.bcast e.hdr e.payload)))) := by
  intro s e hget
  have hpos : bnext_attempt s < s.queue.length :=
    (List.getElem?_eq_some.mp hget).1
  have hlen : ¬ s.queue.length = 0 := by omega
  refine ⟨?_, ?_⟩
  · intro hzero
    have hb : broadcast_next s =
        ({ s with local_ctimer := DTN_PACKET_DELAY }, none) := by
      unfold broadcast_next
      simp [hget, hlen, hzero]
    exact ⟨hb, by rw [hb]; rfl⟩
  · intro hone
    have h1 : ¬ e.hdr.num_copies < 1 := by omega
    have h2 : ¬ e.hdr.num_copies = 0 := by omega
    unfold broadcast_next
    simp [hget, hlen, h1, h2]

/-- Witness for C1 (amended): the skip branch on c1_state (dead entry at the
attempt position, cursor kept) and the send branch on w_state7 (live entry
broadcast and recorded). -/
theorem C1_rotation_witness :
    (c1_state.queue[bnext_attempt c1_state]? = some (mk_entry 1 0) ∧
     (mk_entry 1 0).hdr.num_copies < 1 ∧
     broadcast_next c1_state =
       ({ c1_state with local_ctimer := DTN_PACKET_DELAY }, none) ∧
     bnext_attempt (broadcast_next c1_state).1 = bnext_attempt c1_state) ∧
    (w_state7.queue[bnext_attempt w_state7]? = some (mk_entry 5 7) ∧
     1 ≤ (mk_entry 5 7).hdr.num_copies ∧
     broadcast_next w_state7 =
       ({ w_state7 with
           pkt_last_sent := some (bnext_attempt w_state7),
           local_ctimer :=
             if bnext_attempt w_state7 + 1 = w_state7.queue.length then
               DTN_QUEUE_DELAY
             else DTN_PACKET_DELAY },
         some (Packet.bcast (mk_entry 5 7).hdr (mk_entry 5 7).payload))) :=
  ⟨⟨by decide, by decide,
    ((C1_rotation c1_state (mk_entry 1 0) (by decide)).1 (by decide)).1,
    ((C1_rotation c1_state (mk_entry 1 0) (by decide)).1 (by decide)).2⟩,
   ⟨by decide, by decide,
    (C1_rotation w_state7 (mk_entry 5 7) (by decide)).2 (by decide)⟩⟩

/-- C6 counterexample: the valid offer c6_hdr (num_copies = 1, origin 10,
destination 20) reaches node 30 — neither origin nor destination — with an
empty queue and an absent key, yet the handler ignores it: no entry is
admitted and no unicast request is sent, because a num_copies = 1 broadcast
that has not reached its destination is dropped by the destination-search
filter before the admit path. -/
theorem C6_admit_counterexample :
    is_spray_wait c6_hdr = true ∧
    c6_hdr.esender ≠ 30 ∧
    c6_hdr.ereceiver ≠ 30 ∧
    find_packet c6_hdr.epacketid c6_hdr.esender c6_hdr.ereceiver
      dtn_init.queue = none ∧
    dtn_init.queue.length < MAX_QUEUE_PACKETS ∧
    recv_bcast 30 10 c6_hdr (some "x") dtn_init = (dtn_init, []) := by
  decide

/-- C6 (amended): for every valid broadcast offer whose num_copies is not 1
received by a node that is neither origin nor destination, when no entry with
the offer's key exists and the queue is below capacity, a new entry is
admitted with num_copies = 0 and lifetime DTN_TIMEOUT_UNCONFIRMED, and a
unicast request carrying the stored (un-halved, zeroed) header is sent to the
broadcaster. -/
theorem C6_admit_fresh :
    ∀ (me f : Nat) (hdr : dtn_msg_header) (p : Option String) (s : dtn_vars),
      is_spray_wait hdr = true →
      hdr.num_copies ≠ 1 →
      hdr.esender ≠ me →
      hdr.ereceiver ≠ me →
      find_packet hdr.epacketid hdr.esender hdr.ereceiver s.queue = none →
      s.queue.length < MAX_QUEUE_PACKETS →
      recv_bcast me f hdr p s =
        ({ s with queue := s.queue ++ [recv_entry hdr p] },
          [Packet.unic (recv_entry hdr p).hdr none f]) ∧
      (recv_entry hdr p).hdr = { hdr with num_copies := 0 } ∧
      (recv_entry hdr p).lifetime = DTN_TIMEOUT_UNCONFIRMED := by
  intro me f hdr p s hsw hc1 hes her hfind hlen
  refine ⟨?_, rfl, rfl⟩
  have hfind2 : find_packet hdr.epacketid hdr.esender hdr.ereceiver
      (s.queue ++ [recv_entry hdr p]) = some s.queue.length := by
    rw [find_packet_append_none hfind, if_pos ⟨rfl, rfl, rfl⟩]
  have hget2 : (s.queue ++ [recv_entry hdr p])[s.queue.length]? =
      some (recv_entry hdr p) := List.getElem?_concat_length _ _
  unfold recv_bcast
  simp [hsw, hc1, hes, her, hfind, Nat.ne_of_lt hlen, hfind2, hget2]

/-- Witness for C6 (amended): node 30 admits the fresh offer (8 copies,
origin 10, destination 20) with a zeroed count and replies to broadcaster
10 with the stored header. -/
theorem C6_admit_fresh_witness :
    (is_spray_wait offer_hdr = true ∧
     offer_hdr.num_copies ≠ 1 ∧
     offer_hdr.esender ≠ 30 ∧
     offer_hdr.ereceiver ≠ 30 ∧
     find_packet offer_hdr.epacketid offer_hdr.esender offer_hdr.ereceiver
       dtn_init.queue = none ∧
     dtn_init.queue.length < MAX_QUEUE_PACKETS) ∧
    recv_bcast 30 10 offer_hdr (some "x") dtn_init =
      ({ dtn_init with
          queue := dtn_init.queue ++ [recv_entry offer_hdr (some "x")] },
        [Packet.unic (recv_entry offer_hdr (some "x")).hdr none 10]) ∧
    (recv_entry offer_hdr (some "x")).hdr =
      { offer_hdr with num_copies := 0 } ∧
    (recv_entry offer_hdr (some "x")).lifetime = DTN_TIMEOUT_UNCONFIRMED :=
  ⟨⟨by decide, by decide, by decide, by decide, by decide, by decide⟩,
   C6_admit_fresh 30 10 offer_hdr (some "x") dtn_init
     (by decide) (by decide) (by decide) (by decide) (by decide) (by decide)⟩

/-- C7 counterexample: the valid offer c7_hdr has destination 30 = the local
node, yet recv_bcast at node 30 sends no unicast request (and changes
nothing), because the offer's origin is also node 30 and the loop-suppression
filter fires first.  The claim, quantified over every valid offer for the
local destination, demands a reply here. -/
theorem C7_deliver_counterexample :
    is_spray_wait c7_hdr = true ∧
    c7_hdr.ereceiver = 30 ∧
    recv_bcast 30 10 c7_hdr (some "x") dtn_init = (dtn_init, []) := by
  decide

/-- C7 (amended): for every valid broadcast offer whose destination is the
local node and whose origin is NOT the local node, the handler replies to the
broadcaster with a unicast request carrying only the header (payload
stripped: the emitted unicast has no payload) and does not touch the engine
state — in particular no queue entry is created. -/
theorem C7_deliver :
    ∀ (me f : Nat) (hdr : dtn_msg_header) (p : Option String) (s : dtn_vars),
      is_spray_wait hdr = true →
      hdr.ereceiver = me →
      hdr.esender ≠ me →
      recv_bcast me f hdr p s = (s, [Packet.unic hdr none f]) := by
  intro me f hdr p s hsw her hes
  unfold recv_bcast
  simp [hsw, her, hes]

/-- Witness for C7 (amended): node 30 receives the offer destined to it from
origin 10 and replies to broadcaster 10 with the bare header. -/
theorem C7_deliver_witness :
    (is_spray_wait c7w_hdr = true ∧
     c7w_hdr.ereceiver = 30 ∧
     c7w_hdr.esender ≠ 30) ∧
    recv_bcast 30 10 c7w_hdr (some "x") dtn_init =
      (dtn_init, [Packet.unic c7w_hdr none 10]) :=
  ⟨⟨by decide, by decide, by decide⟩,
   C7_deliver 30 10 c7w_hdr (some "x") dtn_init
     (by decide) (by decide) (by decide)⟩

/-- C8 counterexample: dtn_new_buff returns void (Unit here), so the value
the caller receives after a refused admission on a full queue is identical to
the value received after a successful admission on an empty queue; no
boolean or result value distinguishes refusal from success, although the two
calls behave differently (the queue grows in one case only). -/
theorem C8_observable_counterexample :
    (dtn_new_buff "m" 3 8 full_state).2 = (dtn_new_buff "m" 3 8 dtn_init).2 ∧
    (dtn_new_buff "m" 3 8 full_state).1 = full_state ∧
    (dtn_new_buff "m" 3 8 dtn_init).1.queue.length =
      dtn_init.queue.length + 1 := by
  decide

/-- C8 (amended): admission refusal when originating at capacity is not
surfaced as a return value — dtn_new_buff returns void and drops silently,
exactly as dtn.h documents; the refusal is observable only indirectly, e.g.
through dtn_q_size being unchanged. -/
theorem C8_refusal_silent :
    ∀ (d : String) (dst me : Nat) (s : dtn_vars),
      s.queue.length = MAX_QUEUE_PACKETS →
      dtn_new_buff d dst me s = (s, ()) ∧
      dtn_q_size (dtn_new_buff d dst me s).1 = dtn_q_size s := by
  intro d dst me s hlen
  have h : dtn_new_buff d dst me s = (s, ()) := by
    unfold dtn_new_buff
    rw [if_pos hlen]
  exact ⟨h, by rw [h]⟩

/-- Witness for C8 (amended): originating on the full queue leaves the state
and the reported queue size unchanged. -/
theorem C8_refusal_silent_witness :
    full_state.queue.length = MAX_QUEUE_PACKETS ∧
    dtn_new_buff "m" 3 8 full_state = (full_state, ()) ∧
    dtn_q_size (dtn_new_buff "m" 3 8 full_state).1 = dtn_q_size full_state :=
  ⟨by decide,
   (C8_refusal_silent "m" 3 8 full_state (by decide)).1,
   (C8_refusal_silent "m" 3 8 full_state (by decide)).2⟩

/-- C9 counterexample: pkt_seq_no is a uint8_t, so a successful origination
at counter value 255 wraps the counter to 0; under the claimed modulo-2^16
behaviour it would become 256.  The wrap happens after 2^8 = 256
originations, earlier than the claimed 2^16. -/
theorem C9_wrap_counterexample :
    s255.pkt_seq_no = 255 ∧
    s255.queue.length < MAX_QUEUE_PACKETS ∧
    (dtn_new_buff "m" 3 8 s255).1.pkt_seq_no = 0 ∧
    (255 + 1) % 2 ^ 16 = 256 ∧
    (dtn_new_buff "m" 3 8 s255).1.pkt_seq_no ≠ (255 + 1) % 2 ^ 16 := by
  decide

/-- C9 (amended): every successful origination stamps the admitted entry's
header with the pre-increment counter and increments the counter by exactly
1 modulo 2^8 — the counter is a uint8_t, narrower than the header's uint16_t
sequence_id field — so sequence ids repeat with period 256, not 65536. -/
theorem C9_seq_increment :
    ∀ (d : String) (dst me : Nat) (s : dtn_vars),
      s.queue.length ≠ MAX_QUEUE_PACKETS →
      (dtn_new_buff d dst me s).1.pkt_seq_no = (s.pkt_seq_no + 1) % 2 ^ 8 ∧
      (dtn_new_buff d dst me s).1.queue =
        s.queue ++ [{ hdr := create_buf_hdr me dst s.pkt_seq_no,
                      payload := some d,
                      lifetime :=
                        calculate_max_lifetime DTN_L_COPIES }] ∧
      (create_buf_hdr me dst s.pkt_seq_no).epacketid = s.pkt_seq_no := by
  intro d dst me s hlen
  refine ⟨?_, ?_, rfl⟩ <;>
    · unfold dtn_new_buff
      rw [if_neg hlen]
      rfl

/-- Witness for C9 (amended): an origination at counter 255 stamps id 255
and wraps the counter to (255 + 1) % 2^8 = 0. -/
theorem C9_seq_increment_witness :
    s255.queue.length ≠ MAX_QUEUE_PACKETS ∧
    (dtn_new_buff "m" 3 8 s255).1.pkt_seq_no = (s255.pkt_seq_no + 1) % 2 ^ 8 ∧
    (dtn_new_buff "m" 3 8 s255).1.queue =
      s255.queue ++ [{ hdr := create_buf_hdr 8 3 s255.pkt_seq_no,
                       payload := some "m",
                       lifetime := calculate_max_lifetime DTN_L_COPIES }] ∧
    (create_buf_hdr 8 3 s255.pkt_seq_no).epacketid = s255.pkt_seq_no :=
  ⟨by decide,
   (C9_seq_increment "m" 3 8 s255 (by decide)).1,
   (C9_seq_increment "m" 3 8 s255 (by decide)).2.1,
   (C9_seq_increment "m" 3 8 s255 (by decide)).2.2⟩

end DTN
